import Mathlib

/-!
Shallow embedding of `src/sync_client.ts` (class `SyncClient`).

The source is a small asynchronous state machine: a `SyncClient` owns
`urls` (the tracked set), `options` (per-url connection options) and
`statusChangeListeners`, and talks to three external collaborators:
the connectivity oracle (`isOnline` / `onlineStatusChanged`), the
`Dexie.Syncable` layer (`connect` / `disconnect` / `delete` /
`getStatus` / `statusChanged` events), and its callers.

We model the manager state plus the in-flight promises explicitly,
and drive the system by an `Event` list: caller operations start
asynchronous work (recorded as pending entries, FIFO per url), and
resolution events (`oracleResolve`, `adapterResolve`, `discResolve`)
deliver the collaborator answers, running the continuations the
source attaches with `.then` / `.catch`.  Reachability notifications
(`flip`) run every `onlineStatusChanged` callback registered for the
url, and `statusEvent` models the syncable layer emitting
`statusChanged(status, url)`.

Ghost log fields (`adapterConnects`, `syncDisconnects`, `surfaced`,
`successLog`, `trackedSpec`) record observable interactions; the
source-derived fields never read them.
-/

namespace SyncClient

/-- Values stored in an options bag (`pollInterval` is a number,
`credentials` a string). -/
inductive OptVal
  | num (n : Nat)
  | str (s : String)
deriving DecidableEq

/-- A JS options object, as an association list with leftmost-wins
lookup semantics. -/
abbrev Options := List (String × OptVal)

/-- Source lines 14–17: the two default sync options. -/
def defaultSyncOptions : Options :=
  [("pollInterval", OptVal.num 10000), ("credentials", OptVal.str "omit")]

/-- Source line 84: `Object.assign({}, options, defaultSyncOptions)`.
The defaults are assigned last, so on a key collision the default wins;
with leftmost-wins lookup this is the defaults in front of the caller
options. -/
def mergeOptions (options : Options) : Options :=
  defaultSyncOptions ++ options

/-- Modelled from the spec: `Dexie.Syncable.StatusTexts` (external
collaborator), translating the enumerated status to its human-readable
form. -/
def statusText (st : Int) : String :=
  if st = -1 then "ERROR"
  else if st = 0 then "OFFLINE"
  else if st = 1 then "CONNECTING"
  else if st = 2 then "ONLINE"
  else if st = 3 then "SYNCING"
  else if st = 4 then "ERROR_WILL_RETRY"
  else "UNKNOWN"

/-- A failure delivered to some caller of a `SyncClient` method
(a rejected promise that the caller observes). -/
inductive Surfaced
  | notOnline (url : String)
  | connectFailure (url : String)
  | disconnectFailure (url : String)
deriving DecidableEq

/-- The state of one `SyncClient` together with its in-flight promises
and the modelled syncable-layer status store. -/
structure State where
  /-- Source line 51: `this.urls`, the tracked set (a JS array). -/
  urls : List String
  /-- Source line 50: `this.options`, per-url stored connection options. -/
  options : List (String × Options)
  /-- Source line 52: `this.statusChangeListeners` (callbacks named by ids). -/
  statusChangeListeners : List (String × Nat)
  /-- `onlineStatusChanged` registrations (source line 95); one entry per
  installed subscription, never removed by the source. -/
  subs : List String
  /-- In-flight `isOnline(url)` queries (source line 86), FIFO per url. -/
  pendingOnline : List String
  /-- In-flight `syncable.connect` attempts (source line 68); the flag is
  `true` when started by the public `connect` path (line 89), `false`
  when started by the reachability callback (line 97). -/
  pendingConnect : List (String × Bool)
  /-- In-flight `syncable.disconnect` promises (source line 112); the flag
  is `true` when the promise is returned to a caller (public
  `disconnect`), `false` where the source drops the promise
  (the `_connect` catch at line 70, the reachability callback at
  line 99). -/
  pendingDisc : List (String × Bool)
  /-- Modelled from the spec: the per-url status store of the syncable layer,
  written when the facade emits `statusChanged`, purged by
  `syncable.delete`; `getStatus` of an absent url is the
  `UnknownEndpoint` rejection. -/
  nodeStatus : List (String × Int)
  /-- Ghost log: every `syncable.connect` started, in order. -/
  adapterConnects : List String
  /-- Ghost log: every `syncable.disconnect` issued, in order. -/
  syncDisconnects : List String
  /-- Ghost log: failures surfaced to some caller. -/
  surfaced : List Surfaced
  /-- Ghost log: successful adapter connects `(url, fromCaller)`. -/
  successLog : List (String × Bool)
  /-- Ghost (specification-level) tracked set: urls with a completed
  caller-initiated successful connect and no later disconnect/removal. -/
  trackedSpec : List String
  /-- Ghost log: listener invocations `(callback id, human-readable text)`. -/
  calls : List (Nat × String)
deriving DecidableEq

/-- A fresh `SyncClient` (constructor, source lines 50–52). -/
def initState : State :=
  ⟨[], [], [], [], [], [], [], [], [], [], [], [], [], []⟩

/-- JS object update `obj[k] = v`, on the association-list encoding. -/
def upsert (k : String) (v : α) (l : List (String × α)) : List (String × α) :=
  (k, v) :: l.filter (fun p => p.1 != k)

/-- JS object update `obj[k] = undefined` (key becomes absent for lookup). -/
def eraseKey (k : String) (l : List (String × α)) : List (String × α) :=
  l.filter (fun p => p.1 != k)

/-- Remove the first element satisfying `p`, returning it and the rest:
resolution of the oldest matching pending promise. -/
def extractFirst (p : α → Bool) : List α → Option (α × List α)
  | [] => none
  | x :: xs =>
    if p x then some (x, xs)
    else match extractFirst p xs with
      | none => none
      | some (y, ys) => some (y, x :: ys)

/-- Source lines 110–113, `disconnect(url)`: filter `url` out of
`this.urls` and issue `syncable.disconnect(url)`.  `surf` records
whether a rejection of the returned promise would reach a caller. -/
def disconnectStep (s : State) (url : String) (surf : Bool) : State :=
  { s with
    urls := s.urls.filter (fun u => u != url),
    trackedSpec := s.trackedSpec.filter (fun u => u != url),
    syncDisconnects := s.syncDisconnects ++ [url],
    pendingDisc := s.pendingDisc ++ [(url, surf)] }

/-- Source lines 66–68, the call `this.syncable.connect(...)` inside
`_connect`: a new in-flight adapter connect attempt.  `fromCaller`
marks the public `connect` path (which on success pushes the url and
subscribes, and whose rejection reaches the caller). -/
def startConnect (s : State) (url : String) (fromCaller : Bool) : State :=
  { s with
    adapterConnects := s.adapterConnects ++ [url],
    pendingConnect := s.pendingConnect ++ [(url, fromCaller)] }

/-- The events driving the system: caller operations, collaborator
promise resolutions, reachability notifications, and facade status
events. -/
inductive Event
  | connect (url : String) (opts : Options)
  | disconnect (url : String)
  | removeUrl (url : String)
  | statusChange (url : String) (cb : Nat)
  | oracleResolve (url : String) (online : Bool)
  | adapterResolve (url : String) (ok : Bool)
  | discResolve (url : String) (ok : Bool)
  | flip (url : String) (online : Bool)
  | statusEvent (url : String) (st : Int)
deriving DecidableEq

/-- One step of the system. Each branch mirrors the cited lines of
`src/sync_client.ts`. -/
def step (s : State) : Event → State
  | .connect url opts =>
    -- Lines 83–84: membership test `this.urls.indexOf(url) === -1` is
    -- synchronous; on first connect the merged options are stored and
    -- `isOnline(url)` is queried (line 86).  Already tracked: line 107,
    -- immediate resolved no-op.
    if url ∈ s.urls then s
    else { s with
      options := upsert url (mergeOptions opts) s.options,
      pendingOnline := s.pendingOnline ++ [url] }
  | .disconnect url =>
    -- Lines 110–113; the promise is returned to the caller.
    disconnectStep s url true
  | .removeUrl url =>
    -- Lines 115–119: filter urls, clear the listener, `syncable.delete`
    -- (environment: purges the persisted sync node).
    { s with
      urls := s.urls.filter (fun u => u != url),
      trackedSpec := s.trackedSpec.filter (fun u => u != url),
      statusChangeListeners := eraseKey url s.statusChangeListeners,
      nodeStatus := eraseKey url s.nodeStatus }
  | .statusChange url cb =>
    -- Lines 121–123: replace any previous listener for `url`.
    { s with statusChangeListeners := upsert url cb s.statusChangeListeners }
  | .oracleResolve url online =>
    -- Lines 86–105: the `.then` on `isOnline(url)`; resolves the oldest
    -- pending query for `url`.  Reachable: `_connect` starts (line 89).
    -- Unreachable: `Promise.reject` with the Is-not-online error
    -- (line 104) reaches the caller.
    if url ∈ s.pendingOnline then
      let s1 := { s with pendingOnline := s.pendingOnline.erase url }
      if online then startConnect s1 url true
      else { s1 with surfaced := s1.surfaced ++ [.notOnline url] }
    else s
  | .adapterResolve url ok =>
    -- Resolution of the oldest in-flight `syncable.connect` for `url`.
    match extractFirst (fun p => p.1 == url) s.pendingConnect with
    | none => s
    | some ((_, fromCaller), rest) =>
      let s1 := { s with pendingConnect := rest }
      if ok then
        let s2 := { s1 with successLog := s1.successLog ++ [(url, fromCaller)] }
        if fromCaller then
          -- Lines 90–101: the `.then` of the public connect path: push
          -- the url and install the `onlineStatusChanged` subscription.
          { s2 with
            urls := s2.urls ++ [url],
            subs := s2.subs ++ [url],
            trackedSpec := url :: s2.trackedSpec }
        else
          -- Line 97: the reachability-callback reconnect has no `.then`;
          -- nothing further happens on success.
          s2
      else
        -- Lines 69–72: the `.catch` in `_connect` calls
        -- `this.disconnect(url)` (dropping its promise) and rethrows.
        let s2 := disconnectStep s1 url false
        if fromCaller then
          -- The rethrown error propagates to the caller of `connect`.
          { s2 with surfaced := s2.surfaced ++ [.connectFailure url] }
        else
          -- Line 97: the rejected promise of the reconnect is dropped.
          s2
  | .discResolve url ok =>
    -- Resolution of the oldest in-flight `syncable.disconnect` for `url`;
    -- only rejections of promises returned to a caller surface.
    match extractFirst (fun p => p.1 == url) s.pendingDisc with
    | none => s
    | some ((_, surf), rest) =>
      let s1 := { s with pendingDisc := rest }
      if !ok && surf then { s1 with surfaced := s1.surfaced ++ [.disconnectFailure url] }
      else s1
  | .flip url online =>
    -- Lines 95–101: a reachability change runs the callback of every
    -- subscription for `url`: reconnect via `_connect` on true, `disconnect`
    -- on false; both returned promises are dropped.
    let n := s.subs.count url
    if online then
      (List.replicate n ()).foldl (fun st _ => startConnect st url false) s
    else
      (List.replicate n ()).foldl (fun st _ => disconnectStep st url false) s
  | .statusEvent url st =>
    -- The facade records the new status in its store (environment, per
    -- spec §4.2/§6), then the handler at lines 54–59 runs: if a listener
    -- is registered it is invoked with `Dexie.Syncable.StatusTexts[status]`.
    let s1 := { s with nodeStatus := upsert url st s.nodeStatus }
    match s1.statusChangeListeners.lookup url with
    | some cb => { s1 with calls := s1.calls ++ [(cb, statusText st)] }
    | none => s1

/-- Run a sequence of events from a state. -/
def run (s : State) (t : List Event) : State := t.foldl step s

/-- Source lines 142–148, `getStatus(url)`: `syncable.getStatus` then
translation; `none` is the `UnknownEndpoint` rejection for an endpoint
absent from the syncable store (modelled from the spec §7). -/
def getStatus (s : State) (url : String) : Option String :=
  (s.nodeStatus.lookup url).map statusText

/-- `true` iff the event is a facade status event for `url`. -/
def isStatusEventFor (url : String) : Event → Bool
  | .statusEvent u _ => u == url
  | _ => false


/-- The reference (specification-side) tracked-set condition: membership
in the real tracked set `urls` coincides with membership in the ghost
set `trackedSpec` of urls with a completed caller-initiated successful
connect and no later disconnect or removal. -/
def trackedOK (s : State) : Prop :=
  ∀ url, url ∈ s.urls ↔ url ∈ s.trackedSpec

/-- The reference subscription-count condition: the number of installed
reachability subscriptions for a url equals the number of successful
caller-initiated connects for it. -/
def subsOK (s : State) : Prop :=
  ∀ url, s.subs.count url =
    (s.successLog.filter (fun p => p.1 == url && p.2)).length

-- ## helper lemma layer

theorem beq_false_of_ne {u k : String} (h : u ≠ k) : (u == k) = false :=
  beq_eq_false_iff_ne.mpr h

theorem lookup_filterKey_ne {α : Type} (k u : String) (l : List (String × α))
    (h : u ≠ k) : (l.filter (fun p => p.1 != k)).lookup u = l.lookup u := by
  induction l with
  | nil => rfl
  | cons p t ih =>
    by_cases hp : p.1 = k
    · have hk : (u == p.1) = false := beq_false_of_ne (hp ▸ h)
      have hk2 : (u == k) = false := beq_false_of_ne h
      simp [List.filter_cons, hp, List.lookup, hk, hk2, ih]
    · by_cases hu : u = p.1
      · simp [List.filter_cons, hp, List.lookup, hu]
      · have hk : (u == p.1) = false := beq_false_of_ne hu
        simp [List.filter_cons, hp, List.lookup, hk, ih]

theorem lookup_filterKey_self {α : Type} (k : String) (l : List (String × α)) :
    (l.filter (fun p => p.1 != k)).lookup k = none := by
  induction l with
  | nil => rfl
  | cons p t ih =>
    by_cases hp : p.1 = k
    · simp [List.filter_cons, hp, ih]
    · have hk : (k == p.1) = false := beq_false_of_ne (Ne.symm hp)
      simp [List.filter_cons, hp, List.lookup, hk, ih]

theorem lookup_upsert_self {α : Type} (k : String) (v : α) (l : List (String × α)) :
    (upsert k v l).lookup k = some v := by
  simp [upsert, List.lookup]

theorem lookup_upsert_ne {α : Type} (k u : String) (v : α) (l : List (String × α))
    (h : u ≠ k) : (upsert k v l).lookup u = l.lookup u := by
  simp [upsert, List.lookup, beq_false_of_ne h, lookup_filterKey_ne k u l h]

theorem erase_append_self (a : String) (l : List String) (h : a ∉ l) :
    (l ++ [a]).erase a = l := by
  induction l with
  | nil => simp
  | cons b t ih =>
    have hb : b ≠ a := fun hba => h (hba ▸ List.mem_cons_self b t)
    have ht : a ∉ t := fun hm => h (List.mem_cons_of_mem b hm)
    simp [List.erase_cons, hb, ih ht]


-- ## generic invariant machinery

theorem foldl_unit_pres {P : State → Prop} {f : State → State}
    (hf : ∀ s, P s → P (f s)) :
    ∀ (l : List Unit) (s : State), P s → P (l.foldl (fun st _ => f st) s) := by
  intro l
  induction l with
  | nil => intro s h; exact h
  | cons x t ih => intro s h; exact ih (f s) (hf s h)

theorem run_inv {P : State → Prop}
    (hstep : ∀ s e, P s → P (step s e)) :
    ∀ (t : List Event) (s : State), P s → P (run s t) := by
  intro t
  induction t with
  | nil => intro s h; exact h
  | cons e t ih => intro s h; exact ih (step s e) (hstep s e h)

-- ## tracked-set invariant (the amended C2)

theorem trackedOK_disconnectStep {s : State} (url : String) (surf : Bool)
    (h : trackedOK s) : trackedOK (disconnectStep s url surf) := by
  intro u
  simp only [disconnectStep, List.mem_filter]
  rw [h u]

theorem trackedOK_startConnect {s : State} (url : String) (fc : Bool)
    (h : trackedOK s) : trackedOK (startConnect s url fc) := h

theorem trackedOK_step {s : State} (e : Event) (h : trackedOK s) :
    trackedOK (step s e) := by
  cases e with
  | connect url opts =>
    by_cases hm : url ∈ s.urls
    · simpa [step, hm] using h
    · simpa [step, hm] using h
  | disconnect url => exact trackedOK_disconnectStep url true h
  | removeUrl url =>
    intro u
    simp only [step, List.mem_filter]
    rw [h u]
  | statusChange url cb => exact h
  | oracleResolve url online =>
    by_cases hp : url ∈ s.pendingOnline
    · cases online
      · simpa [step, hp] using h
      · simpa [step, hp] using
          trackedOK_startConnect (s := { s with pendingOnline := s.pendingOnline.erase url })
            url true h
    · simpa [step, hp] using h
  | adapterResolve url ok =>
    intro u
    cases hx : extractFirst (fun p => p.1 == url) s.pendingConnect with
    | none => simp only [step, hx]; exact h u
    | some r =>
      obtain ⟨⟨u1, fc⟩, rest⟩ := r
      cases ok <;> cases fc <;>
        simp [step, hx, disconnectStep, List.mem_filter, List.mem_append, h u,
          or_comm]
  | discResolve url ok =>
    cases hx : extractFirst (fun p => p.1 == url) s.pendingDisc with
    | none => simpa [step, hx] using h
    | some r =>
      obtain ⟨⟨u1, surf⟩, rest⟩ := r
      by_cases hc : (!ok && surf) = true
      · simpa [step, hx, hc] using h
      · simpa [step, hx, hc] using h
  | flip url online =>
    cases online with
    | true =>
      simp only [step]
      exact foldl_unit_pres (fun s2 h2 => trackedOK_startConnect (s := s2) url false h2) _ s h
    | false =>
      simp only [step]
      exact foldl_unit_pres (fun s2 h2 => trackedOK_disconnectStep (s := s2) url false h2) _ s h
  | statusEvent url st =>
    intro u
    simp only [step]
    cases hl : List.lookup url s.statusChangeListeners with
    | none => simp only [hl]; exact h u
    | some cb => simp only [hl]; exact h u


-- ## subscription-count invariant (the amended C6)

theorem subsOK_step {s : State} (e : Event) (h : subsOK s) :
    subsOK (step s e) := by
  cases e with
  | connect url opts =>
    by_cases hm : url ∈ s.urls
    · simpa [step, hm] using h
    · simpa [step, hm] using h
  | disconnect url => exact h
  | removeUrl url => exact h
  | statusChange url cb => exact h
  | oracleResolve url online =>
    by_cases hp : url ∈ s.pendingOnline
    · cases online
      · simpa [step, hp] using h
      · simpa [step, hp] using h
    · simpa [step, hp] using h
  | adapterResolve url ok =>
    intro u
    cases hx : extractFirst (fun p => p.1 == url) s.pendingConnect with
    | none => simp only [step, hx]; exact h u
    | some r =>
      obtain ⟨⟨u1, fc⟩, rest⟩ := r
      rcases eq_or_ne url u with hu | hu
      · subst hu
        cases ok <;> cases fc <;>
          simp [step, hx, disconnectStep, List.count_append, List.filter_append,
            List.count_cons, List.count_nil, h url]
      · cases ok <;> cases fc <;>
          simp [step, hx, disconnectStep, List.count_append, List.filter_append,
            List.count_cons, List.count_nil, h u, beq_false_of_ne hu]
  | discResolve url ok =>
    intro u
    cases hx : extractFirst (fun p => p.1 == url) s.pendingDisc with
    | none => simp only [step, hx]; exact h u
    | some r =>
      obtain ⟨⟨u1, surf⟩, rest⟩ := r
      by_cases hc : (!ok && surf) = true
      · simpa [step, hx, hc] using h u
      · simpa [step, hx, hc] using h u
  | flip url online =>
    cases online with
    | true =>
      simp only [step]
      exact foldl_unit_pres (P := subsOK) (f := fun s2 => startConnect s2 url false)
        (fun s2 h2 => h2) _ s h
    | false =>
      simp only [step]
      exact foldl_unit_pres (P := subsOK) (f := fun s2 => disconnectStep s2 url false)
        (fun s2 h2 => h2) _ s h
  | statusEvent url st =>
    intro u
    simp only [step]
    cases hl : List.lookup url s.statusChangeListeners with
    | none => simp only [hl]; exact h u
    | some cb => simp only [hl]; exact h u

-- ## nodeStatus absence lemmas (C8)

theorem nodeStatus_none_step {s : State} {url : String} (e : Event)
    (he : isStatusEventFor url e = false)
    (h : s.nodeStatus.lookup url = none) :
    (step s e).nodeStatus.lookup url = none := by
  cases e with
  | connect u opts =>
    by_cases hm : u ∈ s.urls
    · simpa [step, hm] using h
    · simpa [step, hm] using h
  | disconnect u => exact h
  | removeUrl u =>
    by_cases hu : url = u
    · simp only [step]
      simpa [eraseKey, hu] using lookup_filterKey_self u s.nodeStatus
    · simp only [step]
      simpa [eraseKey] using (lookup_filterKey_ne u url s.nodeStatus hu).trans h
  | statusChange u cb => exact h
  | oracleResolve u online =>
    by_cases hp : u ∈ s.pendingOnline
    · cases online
      · simpa [step, hp] using h
      · simpa [step, hp] using h
    · simpa [step, hp] using h
  | adapterResolve u ok =>
    have hnode : (step s (Event.adapterResolve u ok)).nodeStatus = s.nodeStatus := by
      cases hx : extractFirst (fun p => p.1 == u) s.pendingConnect with
      | none => simp [step, hx]
      | some r =>
        obtain ⟨⟨u1, fc⟩, rest⟩ := r
        cases ok <;> cases fc <;> simp [step, hx, disconnectStep]
    rw [hnode]
    exact h
  | discResolve u ok =>
    cases hx : extractFirst (fun p => p.1 == u) s.pendingDisc with
    | none => simp only [step, hx]; exact h
    | some r =>
      obtain ⟨⟨u1, surf⟩, rest⟩ := r
      by_cases hc : (!ok && surf) = true
      · simpa [step, hx, hc] using h
      · simpa [step, hx, hc] using h
  | flip u online =>
    cases online with
    | true =>
      simp only [step]
      exact foldl_unit_pres (P := fun s2 => s2.nodeStatus.lookup url = none)
        (f := fun s2 => startConnect s2 u false) (fun s2 h2 => h2) _ s h
    | false =>
      simp only [step]
      exact foldl_unit_pres (P := fun s2 => s2.nodeStatus.lookup url = none)
        (f := fun s2 => disconnectStep s2 u false) (fun s2 h2 => h2) _ s h
  | statusEvent u st =>
    have hu : url ≠ u := by
      intro hq
      simp [isStatusEventFor, hq] at he
    simp only [step]
    cases hl : List.lookup u s.statusChangeListeners with
    | none =>
      simp only [hl]
      simpa using (lookup_upsert_ne u url st s.nodeStatus hu).trans h
    | some cb =>
      simp only [hl]
      simpa using (lookup_upsert_ne u url st s.nodeStatus hu).trans h

theorem nodeStatus_none_run {url : String} :
    ∀ (t : List Event) (s : State),
      (t.all fun e => !(isStatusEventFor url e)) = true →
      s.nodeStatus.lookup url = none →
      (run s t).nodeStatus.lookup url = none := by
  intro t
  induction t with
  | nil => intro s _ h; exact h
  | cons e t ih =>
    intro s ha h
    simp only [List.all_cons, Bool.and_eq_true, Bool.not_eq_eq_eq_not, Bool.not_true] at ha
    exact ih (step s e) (by simpa using ha.2)
      (nodeStatus_none_step e (by simpa using ha.1) h)


-- ## claim theorems

/-- Claim C1, counterexample. The claim states that a second `connect(E)`
while the first is still pending starts no second underlying protocol
connect.  In the model, two `connect` calls for the same url followed by
the two oracle answers (both reachable) leave TWO in-flight adapter
connect attempts for that url, and two `syncable.connect` calls were
started: the tracked-set membership test passes both times because the
url is only pushed after the first attempt succeeds. -/
theorem connect_pending_double_attempt :
    (run initState [Event.connect "e" [], Event.connect "e" [],
        Event.oracleResolve "e" true, Event.oracleResolve "e" true]).adapterConnects
      = ["e", "e"]
    ∧ (run initState [Event.connect "e" [], Event.connect "e" [],
        Event.oracleResolve "e" true, Event.oracleResolve "e" true]).pendingConnect
      = [("e", true), ("e", true)] := by
  decide

/-- Claim C1, amended. Once a connect for `url` has completed
successfully (`url` is in the tracked set), a further `connect(url)`
call starts no oracle query and no underlying adapter connect: no new
in-flight attempt is created.  The in-flight idempotence claimed by the
spec holds only from completion of the first connect onward, not during
its pending window. -/
theorem connect_done_no_second_attempt (s : State) (url : String) (opts : Options)
    (h : url ∈ s.urls) :
    (step s (Event.connect url opts)).adapterConnects = s.adapterConnects
    ∧ (step s (Event.connect url opts)).pendingConnect = s.pendingConnect
    ∧ (step s (Event.connect url opts)).pendingOnline = s.pendingOnline := by
  simp [step, h]

/-- Claim C2, counterexample. Two overlapping caller connects that both
succeed leave the tracked set with a duplicate entry; and after
connect-success, reachability flip to false (auto-disconnect) and back
to true, the triggered reconnect succeeds (`successLog` records the
second, non-caller success) yet the tracked set stays empty: a
successful reachability-triggered reconnect does not restore
membership. -/
theorem tracked_membership_claim_false :
    (run initState [Event.connect "e" [], Event.connect "e" [], Event.oracleResolve "e" true,
        Event.oracleResolve "e" true, Event.adapterResolve "e" true,
        Event.adapterResolve "e" true]).urls = ["e", "e"]
    ∧ (run initState [Event.connect "e" [], Event.oracleResolve "e" true,
        Event.adapterResolve "e" true, Event.flip "e" false, Event.flip "e" true,
        Event.adapterResolve "e" true]).urls = []
    ∧ (run initState [Event.connect "e" [], Event.oracleResolve "e" true,
        Event.adapterResolve "e" true, Event.flip "e" false, Event.flip "e" true,
        Event.adapterResolve "e" true]).successLog = [("e", true), ("e", false)] := by
  decide

/-- Claim C2, amended. Over every event sequence, an endpoint is a
member of the tracked set `urls` if and only if a successful
caller-initiated connect has completed for it with no subsequent
disconnect, removal, or reachability-triggered auto-disconnect —
the condition maintained by the specification-side ghost set
`trackedSpec`.  Reachability-triggered reconnects never restore
membership, and duplicates (which the membership-level statement
tolerates) can arise from overlapping caller connects. -/
theorem tracked_iff_caller_success :
    ∀ (t : List Event) (url : String),
      url ∈ (run initState t).urls ↔ url ∈ (run initState t).trackedSpec := by
  intro t url
  exact run_inv (P := trackedOK) (fun s e hs => trackedOK_step e hs) t initState
    (fun u => Iff.rfl) url

/-- Claim C3. On a first connect, the stored options for the url are the
caller options overlaid by the defaults applied last: the stored
`pollInterval` is always 10000 and the stored credentials policy is
always "omit" regardless of caller-supplied values for those keys,
while every other caller-supplied key is preserved. -/
theorem connect_options_defaults (s : State) (url : String) (opts : Options) (k : String)
    (h1 : url ∉ s.urls) (h2 : k ≠ "pollInterval") (h3 : k ≠ "credentials") :
    (step s (Event.connect url opts)).options.lookup url = some (mergeOptions opts)
    ∧ (mergeOptions opts).lookup "pollInterval" = some (OptVal.num 10000)
    ∧ (mergeOptions opts).lookup "credentials" = some (OptVal.str "omit")
    ∧ (mergeOptions opts).lookup k = opts.lookup k := by
  refine ⟨?_, ?_, ?_, ?_⟩
  · simp only [step, if_neg h1]
    exact lookup_upsert_self url (mergeOptions opts) s.options
  · simp [mergeOptions, defaultSyncOptions, List.lookup]
  · simp [mergeOptions, defaultSyncOptions, List.lookup]
  · simp [mergeOptions, defaultSyncOptions, List.lookup,
      beq_false_of_ne h2, beq_false_of_ne h3]

/-- Claim C4. For an untracked url with no in-flight oracle query,
`connect` followed by an unreachable oracle answer surfaces the
NotOnline failure to the caller, does not add the url to the tracked
set, starts no adapter connect (none started, none in flight), and
installs no reachability subscription. -/
theorem connect_offline_rejected (s : State) (url : String) (opts : Options)
    (h1 : url ∉ s.urls) (h2 : url ∉ s.pendingOnline) :
    (run s [Event.connect url opts, Event.oracleResolve url false]).surfaced
        = s.surfaced ++ [Surfaced.notOnline url]
    ∧ (run s [Event.connect url opts, Event.oracleResolve url false]).urls = s.urls
    ∧ (run s [Event.connect url opts, Event.oracleResolve url false]).adapterConnects
        = s.adapterConnects
    ∧ (run s [Event.connect url opts, Event.oracleResolve url false]).pendingConnect
        = s.pendingConnect
    ∧ (run s [Event.connect url opts, Event.oracleResolve url false]).subs = s.subs
    ∧ (run s [Event.connect url opts, Event.oracleResolve url false]).pendingOnline
        = s.pendingOnline := by
  have hrun : run s [Event.connect url opts, Event.oracleResolve url false]
      = { s with options := upsert url (mergeOptions opts) s.options,
                 surfaced := s.surfaced ++ [Surfaced.notOnline url] } := by
    simp only [run, List.foldl]
    simp only [step, if_neg h1]
    simp [step, List.mem_append, erase_append_self url s.pendingOnline h2]
  rw [hrun]
  exact ⟨rfl, rfl, rfl, rfl, rfl, rfl⟩

/-- Claim C5. When the in-flight caller-initiated adapter connect for a
url fails: the url is not in the tracked set afterward, a cleanup
`syncable.disconnect` is issued, the original connect failure is what
surfaces to the caller, the cleanup-disconnect promise is of the
dropped kind (flag `false`), and a rejection of such a dropped
disconnect promise surfaces nothing. -/
theorem connect_failure_cleanup (s : State) (url : String) (rest : List (String × Bool))
    (hx : extractFirst (fun p => p.1 == url) s.pendingConnect = some ((url, true), rest)) :
    (url ∉ (step s (Event.adapterResolve url false)).urls
      ∧ (step s (Event.adapterResolve url false)).syncDisconnects
          = s.syncDisconnects ++ [url]
      ∧ (step s (Event.adapterResolve url false)).surfaced
          = s.surfaced ++ [Surfaced.connectFailure url]
      ∧ (step s (Event.adapterResolve url false)).pendingDisc
          = s.pendingDisc ++ [(url, false)]
      ∧ (step s (Event.adapterResolve url false)).successLog = s.successLog)
    ∧ (∀ (s2 : State) (rest2 : List (String × Bool)),
        extractFirst (fun p => p.1 == url) s2.pendingDisc = some ((url, false), rest2) →
        (step s2 (Event.discResolve url false)).surfaced = s2.surfaced) := by
  constructor
  · simp only [step, hx]
    simp [disconnectStep, List.mem_filter]
  · intro s2 rest2 hx2
    simp [step, hx2]

/-- Claim C6, counterexample. connect-success, explicit disconnect, then
a second caller connect that succeeds installs a second
`onlineStatusChanged` subscription for the same url: subscriptions are
duplicated across explicit disconnect/connect cycles, contradicting the
at-most-one-per-lifetime claim. -/
theorem subscription_duplicated :
    (run initState [Event.connect "e" [], Event.oracleResolve "e" true,
        Event.adapterResolve "e" true, Event.disconnect "e", Event.connect "e" [],
        Event.oracleResolve "e" true, Event.adapterResolve "e" true]).subs.count "e"
      = 2 := by
  decide

/-- Claim C6, amended. Over every event sequence, the number of
reachability subscriptions installed for a url equals the number of
successful caller-initiated connects for it: reachability-triggered
reconnect cycles never create subscriptions, but every successful
explicit (re)connect adds one, so duplicates arise exactly from
repeated or overlapping caller connects. -/
theorem subscription_count_eq_caller_successes :
    ∀ (t : List Event) (url : String),
      (run initState t).subs.count url
        = ((run initState t).successLog.filter (fun p => p.1 == url && p.2)).length := by
  intro t url
  exact run_inv (P := subsOK) (fun s e hs => subsOK_step e hs) t initState
    (fun u => rfl) url

/-- Claim C7. On a raw status event for a url: the stored current status
is updated so that a later `getStatus` returns the human-readable form
of the event status regardless of listener presence; if a listener is
registered for the url it is invoked with the translated status, and if
none is registered no listener is invoked. -/
theorem status_event_registry (s : State) (url : String) (st : Int) :
    getStatus (step s (Event.statusEvent url st)) url = some (statusText st)
    ∧ (∀ cb : Nat, s.statusChangeListeners.lookup url = some cb →
        (step s (Event.statusEvent url st)).calls = s.calls ++ [(cb, statusText st)])
    ∧ (s.statusChangeListeners.lookup url = none →
        (step s (Event.statusEvent url st)).calls = s.calls) := by
  refine ⟨?_, ?_, ?_⟩
  · simp only [step, getStatus]
    cases hl : List.lookup url s.statusChangeListeners with
    | none => simp [hl, lookup_upsert_self]
    | some cb => simp [hl, lookup_upsert_self]
  · intro cb hcb
    simp [step, hcb]
  · intro hnone
    simp [step, hnone]

/-- Claim C8. `getStatus` fails with the UnknownEndpoint rejection
(modelled as `none`) for any url never connected — that is, for which
the facade has emitted no status event from `initState` — and for any
url immediately after `removeUrl`, whose `syncable.delete` purges the
persisted status. -/
theorem getStatus_unknown_endpoint :
    (∀ (t : List Event) (url : String),
        (t.all fun e => !(isStatusEventFor url e)) = true →
        getStatus (run initState t) url = none)
    ∧ (∀ (s : State) (url : String),
        getStatus (step s (Event.removeUrl url)) url = none) := by
  constructor
  · intro t url ha
    have h := nodeStatus_none_run t initState ha rfl
    simp [getStatus, h]
  · intro s url
    have h : (step s (Event.removeUrl url)).nodeStatus.lookup url = none := by
      simp only [step]
      simpa [eraseKey] using lookup_filterKey_self url s.nodeStatus
    simp [getStatus, h]

/-- Claim C9. `connect` on an already-tracked url is an immediate
successful no-op: the entire state — tracked set, stored options
(even when new options are supplied), listener map, pending promises,
and all logs — is exactly as before, so no oracle query and no adapter
connect happen. -/
theorem connect_tracked_noop (s : State) (url : String) (opts : Options)
    (h : url ∈ s.urls) : step s (Event.connect url opts) = s := by
  simp [step, h]

/-- Claim C10. When the in-flight reachability-triggered reconnect for a
url fails, the failure surfaces to no caller (nothing is added to the
surfaced log), while the cleanup `syncable.disconnect` is still issued,
with its promise of the dropped kind. -/
theorem reconnect_failure_dropped (s : State) (url : String) (rest : List (String × Bool))
    (hx : extractFirst (fun p => p.1 == url) s.pendingConnect = some ((url, false), rest)) :
    (step s (Event.adapterResolve url false)).surfaced = s.surfaced
    ∧ (step s (Event.adapterResolve url false)).syncDisconnects
        = s.syncDisconnects ++ [url]
    ∧ (step s (Event.adapterResolve url false)).pendingDisc
        = s.pendingDisc ++ [(url, false)]
    ∧ (step s (Event.adapterResolve url false)).successLog = s.successLog := by
  simp only [step, hx]
  simp [disconnectStep]


-- ## witnesses

theorem connect_done_no_second_attempt_witness :
    "e" ∈ ({ initState with urls := ["e"] } : State).urls
    ∧ (step ({ initState with urls := ["e"] } : State)
        (Event.connect "e" [])).adapterConnects
      = ({ initState with urls := ["e"] } : State).adapterConnects :=
  ⟨by decide,
    (connect_done_no_second_attempt ({ initState with urls := ["e"] }) "e" [] (by decide)).1⟩

theorem connect_options_defaults_witness :
    ("e" ∉ initState.urls ∧ "extra" ≠ "pollInterval" ∧ "extra" ≠ "credentials")
    ∧ (mergeOptions [("pollInterval", OptVal.num 1),
        ("extra", OptVal.str "x")]).lookup "pollInterval" = some (OptVal.num 10000)
    ∧ (mergeOptions [("pollInterval", OptVal.num 1),
        ("extra", OptVal.str "x")]).lookup "extra" = some (OptVal.str "x") := by
  refine ⟨⟨by decide, by decide, by decide⟩, ?_, ?_⟩
  · exact (connect_options_defaults initState "e"
      [("pollInterval", OptVal.num 1), ("extra", OptVal.str "x")] "extra"
      (by decide) (by decide) (by decide)).2.1
  · have h := (connect_options_defaults initState "e"
      [("pollInterval", OptVal.num 1), ("extra", OptVal.str "x")] "extra"
      (by decide) (by decide) (by decide)).2.2.2
    rw [h]
    decide

theorem connect_offline_rejected_witness :
    ("e" ∉ initState.urls ∧ "e" ∉ initState.pendingOnline)
    ∧ (run initState [Event.connect "e" [], Event.oracleResolve "e" false]).surfaced
        = initState.surfaced ++ [Surfaced.notOnline "e"]
    ∧ (run initState [Event.connect "e" [], Event.oracleResolve "e" false]).urls
        = initState.urls :=
  ⟨⟨by decide, by decide⟩,
    (connect_offline_rejected initState "e" [] (by decide) (by decide)).1,
    (connect_offline_rejected initState "e" [] (by decide) (by decide)).2.1⟩

theorem connect_failure_cleanup_witness :
    extractFirst (fun p => p.1 == "e")
        ({ initState with pendingConnect := [("e", true)] } : State).pendingConnect
      = some (("e", true), [])
    ∧ (step ({ initState with pendingConnect := [("e", true)] } : State)
        (Event.adapterResolve "e" false)).surfaced
      = ({ initState with pendingConnect := [("e", true)] } : State).surfaced
        ++ [Surfaced.connectFailure "e"] :=
  ⟨by decide,
    (connect_failure_cleanup ({ initState with pendingConnect := [("e", true)] })
      "e" [] (by decide)).1.2.2.1⟩

theorem status_event_registry_witness :
    ({ initState with statusChangeListeners := [("e", 7)] }
        : State).statusChangeListeners.lookup "e" = some 7
    ∧ getStatus (step ({ initState with statusChangeListeners := [("e", 7)] } : State)
        (Event.statusEvent "e" 2)) "e" = some (statusText 2)
    ∧ (step ({ initState with statusChangeListeners := [("e", 7)] } : State)
        (Event.statusEvent "e" 2)).calls
      = ({ initState with statusChangeListeners := [("e", 7)] } : State).calls
        ++ [(7, statusText 2)] :=
  ⟨by decide,
    (status_event_registry ({ initState with statusChangeListeners := [("e", 7)] })
      "e" 2).1,
    (status_event_registry ({ initState with statusChangeListeners := [("e", 7)] })
      "e" 2).2.1 7 (by decide)⟩

theorem getStatus_unknown_endpoint_witness :
    (([Event.connect "e" []].all fun e => !(isStatusEventFor "e" e)) = true
      ∧ getStatus (run initState [Event.connect "e" []]) "e" = none)
    ∧ getStatus (step initState (Event.removeUrl "e")) "e" = none :=
  ⟨⟨by decide, getStatus_unknown_endpoint.1 [Event.connect "e" []] "e" (by decide)⟩,
    getStatus_unknown_endpoint.2 initState "e"⟩

theorem connect_tracked_noop_witness :
    "e" ∈ ({ initState with urls := ["e"] } : State).urls
    ∧ step ({ initState with urls := ["e"] } : State) (Event.connect "e" [])
        = ({ initState with urls := ["e"] } : State) :=
  ⟨by decide, connect_tracked_noop ({ initState with urls := ["e"] }) "e" [] (by decide)⟩

theorem reconnect_failure_dropped_witness :
    extractFirst (fun p => p.1 == "e")
        ({ initState with pendingConnect := [("e", false)] } : State).pendingConnect
      = some (("e", false), [])
    ∧ (step ({ initState with pendingConnect := [("e", false)] } : State)
        (Event.adapterResolve "e" false)).surfaced
      = ({ initState with pendingConnect := [("e", false)] } : State).surfaced :=
  ⟨by decide,
    (reconnect_failure_dropped ({ initState with pendingConnect := [("e", false)] })
      "e" [] (by decide)).1⟩


end SyncClient
